import Mathlib

/-!
A shallow embedding of the TodoCLI task manager (src/models.rs, src/db.rs,
src/commands.rs, src/main.rs).

Instants are modelled as integers: nanoseconds since the Unix epoch.  The
program stores timestamps as RFC3339 text produced by chrono's to_rfc3339 and
reads them back with parse_from_rfc3339; on the program's own output that
encoding round-trips and is order-preserving, so the typed store model keeps
instants directly.  A raw-row model (RawRow, taskFromRow) keeps the stored
text timestamps to capture the read-back coercion behaviour of db.rs.
-/

namespace Todo

/-- Leap year test (proleptic Gregorian), as chrono uses. -/
def isLeapYear (y : Int) : Bool :=
  y % 4 == 0 && (y % 100 != 0 || y % 400 == 0)

/-- Number of days in the given month of the given year. -/
def daysInMonth (y m : Int) : Int :=
  if m = 2 then (if isLeapYear y then 29 else 28)
  else if m = 4 ∨ m = 6 ∨ m = 9 ∨ m = 11 then 30
  else 31

/-- Days from the Unix epoch 1970-01-01 to the civil date y-m-d (Howard
Hinnant's days_from_civil algorithm, the calendar arithmetic underlying
chrono). -/
def daysFromCivil (y m d : Int) : Int :=
  let y2 := if m ≤ 2 then y - 1 else y
  let era := (if 0 ≤ y2 then y2 else y2 - 399).fdiv 400
  let yoe := y2 - era * 400
  let doy := (153 * (if 2 < m then m - 3 else m + 9) + 2).fdiv 5 + d - 1
  let doe := yoe * 365 + yoe.fdiv 4 - yoe.fdiv 100 + doy
  era * 146097 + doe - 719468

/-- Numeric value of a list of decimal digit characters. -/
def digitsVal (cs : List Char) : Int :=
  cs.foldl (fun a c => a * 10 + Int.ofNat (c.toNat - 48)) 0

/-- Ten to the given power, as an integer. -/
def pow10 (n : Nat) : Int := (10 : Int) ^ n

/-- Parse exactly two decimal digits from the front of the list. -/
def parse2 (cs : List Char) : Option (Int × List Char) :=
  match cs with
  | c1 :: c2 :: rest =>
    if c1.isDigit && c2.isDigit then some (digitsVal [c1, c2], rest) else none
  | _ => none

/-- Parse an optional RFC3339 fractional-seconds field, returning its value
in nanoseconds and the remaining input (digits beyond nanosecond precision
are truncated, as chrono does). -/
def parseFracNs (cs : List Char) : Option (Int × List Char) :=
  match cs with
  | '.' :: rest =>
    let ds := rest.takeWhile Char.isDigit
    if ds.length = 0 then none
    else
      let ds9 := ds.take 9
      some (digitsVal ds9 * pow10 (9 - ds9.length), rest.dropWhile Char.isDigit)
  | _ => some (0, cs)

/-- Parse an RFC3339 UTC offset (Z, z, or a signed hh:mm) standing at the end
of the input, returning the offset in seconds east of UTC. -/
def parseOffset (cs : List Char) : Option Int :=
  match cs with
  | ['Z'] => some 0
  | ['z'] => some 0
  | sign :: rest =>
    if sign == '+' || sign == '-' then
      match parse2 rest with
      | some (hh, ':' :: r2) =>
        match parse2 r2 with
        | some (mm, []) =>
          if hh ≤ 23 ∧ mm ≤ 59 then
            some (if sign == '-' then -(hh * 3600 + mm * 60) else hh * 3600 + mm * 60)
          else none
        | _ => none
      | _ => none
    else none
  | _ => none

/-- Models chrono's DateTime::parse_from_rfc3339, returning nanoseconds since
the Unix epoch (UTC) for strings of the form YYYY-MM-DDThh:mm:ss with an
optional fraction and a mandatory offset (Z or signed hh:mm); the date-time
separator may be T, t or a space, as chrono accepts. -/
def parse_from_rfc3339 (s : String) : Option Int :=
  match s.toList with
  | y1 :: y2 :: y3 :: y4 :: '-' :: m1 :: m2 :: '-' :: d1 :: d2 :: tsep :: rest =>
    if ([y1, y2, y3, y4, m1, m2, d1, d2].all Char.isDigit)
        && (tsep == 'T' || tsep == 't' || tsep == ' ') then
      let y := digitsVal [y1, y2, y3, y4]
      let mo := digitsVal [m1, m2]
      let da := digitsVal [d1, d2]
      if 1 ≤ mo ∧ mo ≤ 12 ∧ 1 ≤ da ∧ da ≤ daysInMonth y mo then
        match parse2 rest with
        | some (hh, ':' :: r2) =>
          match parse2 r2 with
          | some (mi, ':' :: r3) =>
            match parse2 r3 with
            | some (ss, r4) =>
              if hh ≤ 23 ∧ mi ≤ 59 ∧ ss ≤ 59 then
                match parseFracNs r4 with
                | some (ns, r5) =>
                  match parseOffset r5 with
                  | some off =>
                    some ((daysFromCivil y mo da * 86400
                      + hh * 3600 + mi * 60 + ss - off) * 1000000000 + ns)
                  | none => none
                | none => none
              else none
            | _ => none
          | _ => none
        | _ => none
      else none
    else none
  | _ => none

/-- Models chrono's NaiveDate::parse_from_str with format string %Y-%m-%d on
the whole input: a zero-padded four-digit year, two-digit month and two-digit
day forming a valid calendar date. -/
def parseYmd (s : String) : Option (Int × Int × Int) :=
  match s.toList with
  | [y1, y2, y3, y4, '-', m1, m2, '-', d1, d2] =>
    if [y1, y2, y3, y4, m1, m2, d1, d2].all Char.isDigit then
      let y := digitsVal [y1, y2, y3, y4]
      let m := digitsVal [m1, m2]
      let d := digitsVal [d1, d2]
      if 1 ≤ m ∧ m ≤ 12 ∧ 1 ≤ d ∧ d ≤ daysInMonth y m then some (y, m, d) else none
    else none
  | _ => none

/-- The task record of src/models.rs.  Timestamps are instants in
nanoseconds since the Unix epoch. -/
structure Task where
  id : Option Int
  title : String
  description : Option String
  due_date : Option Int
  priority : Int
  completed : Bool
  created_at : Int
  updated_at : Int
deriving DecidableEq

/-- Task::new of src/models.rs; the source captures Utc::now() internally,
modelled here as the explicit parameter now. -/
def Task.new (title : String) (description : Option String)
    (due_date : Option Int) (priority : Int) (now : Int) : Task :=
  { id := none, title := title, description := description,
    due_date := due_date, priority := priority, completed := false,
    created_at := now, updated_at := now }

/-- Task::priority_text of src/models.rs. -/
def Task.priority_text (t : Task) : String :=
  if t.priority = 0 then "LOW"
  else if t.priority = 1 then "MEDIUM"
  else if t.priority = 2 then "HIGH"
  else "MEDIUM"

/-- Task::is_overdue of src/models.rs; Utc::now() is the parameter now. -/
def Task.is_overdue (now : Int) (t : Task) : Bool :=
  if t.completed then false
  else (t.due_date.map (fun due => decide (now > due))).getD false

/-- The Priority enum of src/main.rs. -/
inductive Priority where
  | low
  | medium
  | high
deriving DecidableEq

/-- Priority::to_int of src/main.rs. -/
def Priority.to_int : Priority → Int
  | .low => 0
  | .medium => 1
  | .high => 2

/-- Priority::from_int of src/main.rs. -/
def Priority.from_int (value : Int) : Priority :=
  if value = 0 then .low
  else if value = 1 then .medium
  else if value = 2 then .high
  else .medium

/-- The state of the SQLite tasks table of src/db.rs: the stored rows (each
with an assigned id) plus the next rowid SQLite will assign. -/
structure Database where
  rows : List Task
  nextId : Int
deriving DecidableEq

/-- Database::add_task of src/db.rs: the INSERT stores the task's fields, the
engine assigns the next rowid, and last_insert_rowid is returned. -/
def Database.add_task (db : Database) (task : Task) : Database × Int :=
  ({ rows := db.rows ++ [{ task with id := some db.nextId }],
     nextId := db.nextId + 1 }, db.nextId)

/-- The total order of the SQL clause ORDER BY priority DESC, created_at ASC
(created_at text is RFC3339 produced by to_rfc3339, whose ordering agrees
with the instant ordering on the program's own output). -/
def taskOrd (a b : Task) : Prop :=
  b.priority < a.priority ∨ (a.priority = b.priority ∧ a.created_at ≤ b.created_at)

instance : DecidableRel taskOrd := fun a b => by
  unfold taskOrd
  exact inferInstance

instance : IsTotal Task taskOrd := by
  constructor
  intro a b
  unfold taskOrd
  omega

instance : IsTrans Task taskOrd := by
  constructor
  intro a b c hab hbc
  unfold taskOrd at hab hbc ⊢
  omega

/-- The WHERE clause built by Database::get_all_tasks of src/db.rs:
completed = FALSE is demanded when include_completed is false, and
priority = p when a priority filter is given. -/
def rowSelected (include_completed : Bool) (priority_filter : Option Int)
    (r : Task) : Bool :=
  (include_completed || !r.completed)
    && (match priority_filter with
        | none => true
        | some p => decide (r.priority = p))

/-- Database::get_all_tasks of src/db.rs: SELECT with the built WHERE clause
and ORDER BY priority DESC, created_at ASC. -/
def Database.get_all_tasks (db : Database) (include_completed : Bool)
    (priority_filter : Option Int) : List Task :=
  List.insertionSort taskOrd
    (db.rows.filter (rowSelected include_completed priority_filter))

/-- Database::get_task_by_id of src/db.rs: SELECT ... WHERE id = ? with the
first matching row, if any. -/
def Database.get_task_by_id (db : Database) (id : Int) : Option Task :=
  db.rows.find? (fun r => decide (r.id = some id))

/-- Database::update_task of src/db.rs: UPDATE sets title, description,
due_date, priority, completed and updated_at (to Utc::now(), the parameter
now) on every row with the given id; id and created_at are not in the SET
list and stay untouched. -/
def Database.update_task (db : Database) (id : Int) (task : Task)
    (now : Int) : Database :=
  { db with rows := db.rows.map (fun r =>
      if r.id = some id then
        { r with title := task.title, description := task.description,
                 due_date := task.due_date, priority := task.priority,
                 completed := task.completed, updated_at := now }
      else r) }

/-- Database::delete_task of src/db.rs: DELETE FROM tasks WHERE id = ?. -/
def Database.delete_task (db : Database) (id : Int) : Database :=
  { db with rows := db.rows.filter (fun r => !decide (r.id = some id)) }

/-- Database::complete_task of src/db.rs: UPDATE tasks SET completed = TRUE,
updated_at = Utc::now() WHERE id = ?. -/
def Database.complete_task (db : Database) (id : Int) (now : Int) : Database :=
  { db with rows := db.rows.map (fun r =>
      if r.id = some id then { r with completed := true, updated_at := now }
      else r) }

/-- Database::task_exists of src/db.rs: SELECT COUNT(*) WHERE id = ? and
compare with zero. -/
def Database.task_exists (db : Database) (id : Int) : Bool :=
  db.rows.any (fun r => decide (r.id = some id))

namespace Commands

/-- parse_due_date of src/commands.rs: try %Y-%m-%d (midnight UTC), then
RFC3339; reject anything else with the format error, and reject a parsed
instant earlier than Utc::now() (the parameter now) with the future error. -/
def parse_due_date (now : Int) (s : String) : Except String Int :=
  let parsedRes : Except String Int :=
    match parseYmd s with
    | some (y, m, d) => .ok (daysFromCivil y m d * 86400 * 1000000000)
    | none =>
      match parse_from_rfc3339 s with
      | some t => .ok t
      | none => .error "Invalid date format. Please use YYYY-MM-DD or RFC3339 format"
  match parsedRes with
  | .error e => .error e
  | .ok t => if t < now then .error "Due date must be in the future" else .ok t

/-- commands::add_task of src/commands.rs: parse the optional due-date
string, build the task with Task::new and insert it. -/
def add_task (db : Database) (title : String) (description : Option String)
    (due_date : Option String) (priority : Priority) (now : Int) :
    Except String (Database × Int) :=
  match due_date with
  | none => .ok (db.add_task (Task.new title description none priority.to_int now))
  | some s =>
    match parse_due_date now s with
    | .error e => .error e
    | .ok due =>
      .ok (db.add_task (Task.new title description (some due) priority.to_int now))

/-- commands::complete_task of src/commands.rs: refuse with a not-found
error when the id does not exist, otherwise delegate to the store. -/
def complete_task (db : Database) (id : Int) (now : Int) :
    Except String Database :=
  if !db.task_exists id then
    .error ("Task with ID " ++ toString id ++ " not found")
  else .ok (db.complete_task id now)

/-- commands::delete_task of src/commands.rs. -/
def delete_task (db : Database) (id : Int) : Except String Database :=
  if !db.task_exists id then
    .error ("Task with ID " ++ toString id ++ " not found")
  else .ok (db.delete_task id)

/-- commands::update_task of src/commands.rs: refuse with a not-found error
when the id does not exist; otherwise fetch the record, overlay the given
fields (parsing a given due-date string, propagating its errors), stamp
updated_at with now and store it back. -/
def update_task (db : Database) (id : Int) (title : Option String)
    (description : Option String) (due_date : Option String)
    (priority : Option Priority) (now : Int) : Except String Database :=
  if !db.task_exists id then
    .error ("Task with ID " ++ toString id ++ " not found")
  else
    match db.get_task_by_id id with
    | none => .error "called unwrap on a None value"
    | some task0 =>
      let t1 := match title with
        | some s => { task0 with title := s }
        | none => task0
      let t2 := match description with
        | some s => { t1 with description := some s }
        | none => t1
      let dueRes : Except String (Option Int) :=
        match due_date with
        | some s =>
          match parse_due_date now s with
          | .ok d => .ok (some d)
          | .error e => .error e
        | none => .ok t2.due_date
      match dueRes with
      | .error e => .error e
      | .ok newDue =>
        let t3 := { t2 with due_date := newDue }
        let t4 := match priority with
          | some p => { t3 with priority := p.to_int }
          | none => t3
        let t5 := { t4 with updated_at := now }
        .ok (db.update_task id t5 now)

end Commands

/-- A raw row of the tasks table as SELECTed in src/db.rs lines 78-97: the
timestamp columns are the stored text. -/
structure RawRow where
  id : Int
  title : String
  description : Option String
  due_date : Option String
  priority : Int
  completed : Bool
  created_at : String
  updated_at : String
deriving DecidableEq

/-- The row-to-Task conversion of Database::get_all_tasks and
Database::get_task_by_id in src/db.rs: a due_date text that fails RFC3339
parsing is coerced to None via and_then/ok, while created_at and updated_at
are parsed with unwrap, whose panic aborts the read (modelled as none). -/
def taskFromRow (row : RawRow) : Option Task :=
  match parse_from_rfc3339 row.created_at, parse_from_rfc3339 row.updated_at with
  | some ca, some ua =>
    some { id := some row.id, title := row.title,
           description := row.description,
           due_date := row.due_date.bind (fun s => parse_from_rfc3339 s),
           priority := row.priority, completed := row.completed,
           created_at := ca, updated_at := ua }
  | _, _ => none

/-- States of the store reachable through its operations, indexed by the
current instant: time never decreases between operations, creation goes
through Task::new at the current instant, and update and complete stamp
updated_at with the current instant as the store does. -/
inductive Reach : Database → Int → Prop where
  | init (t : Int) : Reach { rows := [], nextId := 1 } t
  | tick {db : Database} {t : Int} (t2 : Int) :
      Reach db t → t ≤ t2 → Reach db t2
  | add {db : Database} {t : Int} (title : String)
      (description : Option String) (due : Option Int) (p : Int) :
      Reach db t →
      Reach (db.add_task (Task.new title description due p t)).1 t
  | update {db : Database} {t : Int} (id : Int) (task : Task) :
      Reach db t → Reach (db.update_task id task t) t
  | complete {db : Database} {t : Int} (id : Int) :
      Reach db t → Reach (db.complete_task id t) t

/-- The two-stage parse inside parse_due_date, before the future check: a
%Y-%m-%d date resolves to midnight UTC, otherwise an RFC3339 timestamp
resolves to its instant. -/
def resolvedInstant (s : String) : Option Int :=
  match parseYmd s with
  | some (y, m, d) => some (daysFromCivil y m d * 86400 * 1000000000)
  | none => parse_from_rfc3339 s

/-- Fixture: a task whose stored priority ordinal is the out-of-range 7. -/
def taskP7 : Task :=
  { id := some 1, title := "x", description := none, due_date := none,
    priority := 7, completed := false, created_at := 0, updated_at := 0 }

/-- Fixture: a store holding one incomplete task with id 1. -/
def dbOne : Database :=
  { rows := [{ id := some 1, title := "a", description := none,
               due_date := none, priority := 1, completed := false,
               created_at := 3, updated_at := 3 }], nextId := 2 }

/-- Fixture: the empty store. -/
def dbEmpty : Database := { rows := [], nextId := 1 }

/-- Fixture: an arbitrary concrete task value. -/
def taskA : Task :=
  { id := none, title := "t", description := some "d", due_date := some 11,
    priority := 2, completed := false, created_at := 4, updated_at := 4 }

/-- Fixture: the store after adding one task at instant 5. -/
def dbReach1 : Database :=
  (Database.add_task dbEmpty (Task.new "a" none none 2 5)).1

/-- Fixture: dbReach1 after completing task 1 at instant 6. -/
def dbReach2 : Database := dbReach1.complete_task 1 6

/-- Fixture: the row dbReach2 holds. -/
def rowReach : Task :=
  { id := some 1, title := "a", description := none, due_date := none,
    priority := 2, completed := true, created_at := 5, updated_at := 6 }

/-- Fixture: a raw row whose due_date text is not RFC3339. -/
def rowBadDue : RawRow :=
  { id := 1, title := "a", description := none, due_date := some "garbage",
    priority := 1, completed := false,
    created_at := "2024-01-01T00:00:00Z", updated_at := "2024-01-01T00:00:00Z" }

/-- Fixture: a raw row whose created_at text is not RFC3339. -/
def rowBadCa : RawRow :=
  { id := 1, title := "a", description := none, due_date := none,
    priority := 1, completed := false,
    created_at := "garbage", updated_at := "2024-01-01T00:00:00Z" }

/-- Fixture: a raw row whose updated_at text is not RFC3339. -/
def rowBadUa : RawRow :=
  { id := 1, title := "a", description := none, due_date := none,
    priority := 1, completed := false,
    created_at := "2024-01-01T00:00:00Z", updated_at := "garbage" }

/-! ## Theorems -/

/-- C6: is_overdue returns true iff the task is not completed, a due date
exists, and the due date is strictly before the current instant; a completed
task is never overdue. -/
theorem is_overdue_spec (t : Task) (now : Int) :
    t.is_overdue now = true ↔
      (t.completed = false ∧ ∃ due, t.due_date = some due ∧ due < now) := by
  unfold Task.is_overdue
  cases h : t.completed <;> cases hd : t.due_date <;> simp [h, hd]

/-- C8: the priority label is LOW for 0, MEDIUM for 1, HIGH for 2, and
MEDIUM for every other ordinal; Priority::from_int likewise coerces every
out-of-range ordinal to Medium instead of erroring. -/
theorem priority_label_spec (t : Task) (p : Int) :
    (t.priority = 0 → t.priority_text = "LOW") ∧
    (t.priority = 1 → t.priority_text = "MEDIUM") ∧
    (t.priority = 2 → t.priority_text = "HIGH") ∧
    (t.priority ≠ 0 → t.priority ≠ 1 → t.priority ≠ 2 →
      t.priority_text = "MEDIUM") ∧
    (p ≠ 0 → p ≠ 1 → p ≠ 2 → Priority.from_int p = Priority.medium) := by
  refine ⟨fun h0 => ?_, fun h1 => ?_, fun h2 => ?_,
    fun h0 h1 h2 => ?_, fun h0 h1 h2 => ?_⟩ <;>
    simp [Task.priority_text, Priority.from_int, *]

/-- C8 witness: a task with stored priority ordinal 7 renders MEDIUM, and
from_int coerces 7 to Medium. -/
theorem priority_label_spec_witness :
    taskP7.priority_text = "MEDIUM" ∧ Priority.from_int 7 = Priority.medium :=
  ⟨(priority_label_spec taskP7 7).2.2.2.1 (by decide) (by decide) (by decide),
   (priority_label_spec taskP7 7).2.2.2.2 (by decide) (by decide) (by decide)⟩

/-- C1: every pair of tasks returned by list, in return order, is ordered by
priority descending and, on equal priority, by created_at ascending. -/
theorem get_all_tasks_sorted (db : Database) (inc : Bool) (pf : Option Int) :
    List.Pairwise
      (fun a b => b.priority < a.priority ∨
        (a.priority = b.priority ∧ a.created_at ≤ b.created_at))
      (db.get_all_tasks inc pf) :=
  List.sorted_insertionSort taskOrd _

/-- C2 counterexample: a due date resolving to exactly the current instant
(not strictly after it) is accepted rather than rejected with the
must-be-in-the-future error. -/
theorem parse_due_date_boundary_counterexample :
    resolvedInstant "2026-01-01" = some 1767225600000000000 ∧
    Commands.parse_due_date 1767225600000000000 "2026-01-01" =
      .ok 1767225600000000000 :=
  ⟨by decide, by rfl⟩

/-- C2 (amended): parsing succeeds exactly for %Y-%m-%d dates (midnight UTC)
and RFC3339 timestamps; other strings give the invalid-format error, and a
resolved instant strictly before the current instant gives the
must-be-in-the-future error (an instant equal to now is accepted). -/
theorem parse_due_date_spec (now : Int) (s : String) :
    (resolvedInstant s = none →
      Commands.parse_due_date now s =
        .error "Invalid date format. Please use YYYY-MM-DD or RFC3339 format") ∧
    (∀ t, resolvedInstant s = some t → t < now →
      Commands.parse_due_date now s = .error "Due date must be in the future") ∧
    (∀ t, resolvedInstant s = some t → now ≤ t →
      Commands.parse_due_date now s = .ok t) := by
  unfold Commands.parse_due_date resolvedInstant
  cases hy : parseYmd s with
  | some ymd =>
    obtain ⟨y, m, d⟩ := ymd
    refine ⟨by simp, fun t ht hlt => ?_, fun t ht hge => ?_⟩
    · simp only [Option.some.injEq] at ht
      subst ht
      simp [hlt]
    · simp only [Option.some.injEq] at ht
      subst ht
      have hn : ¬ daysFromCivil y m d * 86400 * 1000000000 < now := by omega
      simp [hn]
  | none =>
    cases hr : parse_from_rfc3339 s with
    | some v =>
      refine ⟨by simp, fun t ht hlt => ?_, fun t ht hge => ?_⟩
      · simp only [Option.some.injEq] at ht
        subst ht
        simp [hlt]
      · simp only [Option.some.injEq] at ht
        subst ht
        have hn : ¬ v < now := by omega
        simp [hn]
    | none => exact ⟨fun _ => by simp, by simp, by simp⟩

/-- C2 witness: a malformed string gives the format error; a date strictly
before now gives the future error; a date at or after now is accepted. -/
theorem parse_due_date_spec_witness :
    Commands.parse_due_date 0 "not-a-date" =
      .error "Invalid date format. Please use YYYY-MM-DD or RFC3339 format" ∧
    Commands.parse_due_date 1767225600000000001 "2026-01-01" =
      .error "Due date must be in the future" ∧
    Commands.parse_due_date 0 "2026-01-01" = .ok 1767225600000000000 :=
  ⟨(parse_due_date_spec 0 "not-a-date").1 (by decide),
   (parse_due_date_spec 1767225600000000001 "2026-01-01").2.1
     1767225600000000000 (by decide) (by decide),
   (parse_due_date_spec 0 "2026-01-01").2.2
     1767225600000000000 (by decide) (by decide)⟩

/-- C7 counterexample: creating a task with an empty title succeeds and
stores the task, instead of failing with a validation error. -/
theorem add_task_empty_title_counterexample :
    Commands.add_task dbEmpty "" none none Priority.medium 0 =
      .ok ({ rows := [{ id := some 1, title := "", description := none,
                        due_date := none, priority := 1, completed := false,
                        created_at := 0, updated_at := 0 }], nextId := 2 }, 1) := by
  rfl

/-- C7 (amended): a create call with an empty title is accepted without any
validation: the task is stored with the empty title. -/
theorem add_task_empty_title_accepted (db : Database)
    (description : Option String) (p : Priority) (now : Int) :
    Commands.add_task db "" description none p now =
      .ok (db.add_task (Task.new "" description none p.to_int now)) ∧
    (db.add_task (Task.new "" description none p.to_int now)).1.rows =
      db.rows ++ [{ id := some db.nextId, title := "",
                    description := description, due_date := none,
                    priority := p.to_int, completed := false,
                    created_at := now, updated_at := now }] := by
  exact ⟨rfl, rfl⟩

/-- C4: list with include_completed = false returns no completed task; with
a priority filter every returned task has exactly that priority; and when no
row matches the built WHERE clause the result is the empty sequence, not an
error. -/
theorem get_all_tasks_filter_spec (db : Database) (inc : Bool) (pf : Option Int) :
    (∀ t ∈ db.get_all_tasks false pf, t.completed = false) ∧
    (∀ p, ∀ t ∈ db.get_all_tasks inc (some p), t.priority = p) ∧
    ((∀ r ∈ db.rows, rowSelected inc pf r = false) →
      db.get_all_tasks inc pf = []) := by
  have hmem : ∀ (i : Bool) (f : Option Int) (t : Task),
      t ∈ db.get_all_tasks i f → rowSelected i f t = true := by
    intro i f t ht
    unfold Database.get_all_tasks at ht
    exact (List.mem_filter.mp ((List.mem_insertionSort taskOrd).mp ht)).2
  refine ⟨fun t ht => ?_, fun p t ht => ?_, fun h => ?_⟩
  · have hsel := hmem false pf t ht
    unfold rowSelected at hsel
    simp only [Bool.false_or, Bool.and_eq_true, Bool.not_eq_true'] at hsel
    exact hsel.1
  · have hsel := hmem inc (some p) t ht
    unfold rowSelected at hsel
    simp only [Bool.and_eq_true, decide_eq_true_eq] at hsel
    exact hsel.2
  · unfold Database.get_all_tasks
    rw [List.filter_eq_nil_iff.mpr (by intro r hr; simp [h r hr])]
    rfl

/-- C4 witness: on a store with one incomplete task, the incompleteness and
priority filters hold, and an unmatched filter yields the empty list. -/
theorem get_all_tasks_filter_spec_witness :
    (∀ t ∈ dbOne.get_all_tasks false none, t.completed = false) ∧
    (∀ t ∈ dbOne.get_all_tasks true (some 1), t.priority = 1) ∧
    dbOne.get_all_tasks false (some 2) = [] :=
  ⟨(get_all_tasks_filter_spec dbOne false none).1,
   (get_all_tasks_filter_spec dbOne true (some 1)).2.1 1,
   (get_all_tasks_filter_spec dbOne false (some 2)).2.2 (by decide)⟩

/-- C3: completing an existing id succeeds and, on the row with that id,
sets completed to true and updated_at to now, leaving id, title,
description, due_date, priority and created_at unchanged (and every other
row untouched); completing a missing id fails with the not-found error. -/
theorem complete_task_spec (db : Database) (id now : Int) :
    (db.task_exists id = true →
      Commands.complete_task db id now = .ok (db.complete_task id now)) ∧
    List.Forall₂ (fun r r2 =>
      (r.id = some id → r2.completed = true ∧ r2.updated_at = now ∧
        r2.title = r.title ∧ r2.description = r.description ∧
        r2.due_date = r.due_date ∧ r2.priority = r.priority ∧
        r2.created_at = r.created_at ∧ r2.id = r.id) ∧
      (r.id ≠ some id → r2 = r))
      db.rows (db.complete_task id now).rows ∧
    (db.task_exists id = false →
      Commands.complete_task db id now =
        .error ("Task with ID " ++ toString id ++ " not found")) := by
  refine ⟨fun h => ?_, ?_, fun h => ?_⟩
  · unfold Commands.complete_task
    simp [h]
  · show List.Forall₂ _ db.rows (db.rows.map _)
    rw [List.forall₂_map_right_iff]
    refine List.forall₂_same.mpr fun r _ => ?_
    by_cases hid : r.id = some id <;> simp [hid]
  · unfold Commands.complete_task
    simp [h]

/-- C3 witness: completing id 1 on a one-task store succeeds, and completing
id 1 on the empty store reports not-found. -/
theorem complete_task_spec_witness :
    Commands.complete_task dbOne 1 5 = .ok (dbOne.complete_task 1 5) ∧
    Commands.complete_task dbEmpty 1 5 =
      .error ("Task with ID " ++ toString (1 : Int) ++ " not found") :=
  ⟨(complete_task_spec dbOne 1 5).1 (by decide),
   (complete_task_spec dbEmpty 1 5).2.2 (by decide)⟩

/-- C5: updating a missing id fails with the not-found error, and the
store-level UPDATE on a missing id leaves every row unchanged, so no record
is created. -/
theorem update_task_not_found_spec (db : Database) (id : Int)
    (title description due : Option String) (p : Option Priority) (now : Int)
    (h : db.task_exists id = false) :
    Commands.update_task db id title description due p now =
      .error ("Task with ID " ++ toString id ++ " not found") ∧
    (∀ task now2, db.update_task id task now2 = db) := by
  have hall : ∀ r ∈ db.rows, ¬ r.id = some id := by
    intro r hr heq
    have : db.task_exists id = true := by
      unfold Database.task_exists
      exact List.any_eq_true.mpr ⟨r, hr, by simp [heq]⟩
    rw [this] at h
    cases h
  constructor
  · unfold Commands.update_task
    simp [h]
  · intro task now2
    unfold Database.update_task
    have hmap := List.map_congr_left (l := db.rows)
      (f := fun r => if r.id = some id then
        { r with title := task.title, description := task.description,
                 due_date := task.due_date, priority := task.priority,
                 completed := task.completed, updated_at := now2 }
        else r)
      (g := fun r => r)
      (fun r hr => by simp [hall r hr])
    rw [hmap, List.map_id']

/-- C5 witness: updating id 1 on the empty store reports not-found, and the
store-level UPDATE is a no-op there. -/
theorem update_task_not_found_spec_witness :
    Commands.update_task dbEmpty 1 none none none none 0 =
      .error ("Task with ID " ++ toString (1 : Int) ++ " not found") ∧
    dbEmpty.update_task 1 taskA 9 = dbEmpty :=
  ⟨(update_task_not_found_spec dbEmpty 1 none none none none 0 (by decide)).1,
   (update_task_not_found_spec dbEmpty 1 none none none none 0 (by decide)).2
     taskA 9⟩

/-- Every row of a store reachable at instant t has created_at at most
updated_at, and updated_at at most t. -/
theorem reach_rows_inv {db : Database} {t : Int} (h : Reach db t) :
    ∀ r ∈ db.rows, r.created_at ≤ r.updated_at ∧ r.updated_at ≤ t := by
  induction h with
  | init t => simp
  | tick t2 h hle ih =>
    intro r hr
    exact ⟨(ih r hr).1, le_trans (ih r hr).2 hle⟩
  | add title description due p h ih =>
    intro r hr
    rcases List.mem_append.mp hr with hold | hnew
    · exact ih r hold
    · rcases List.mem_singleton.mp hnew with rfl
      exact ⟨le_refl _, le_refl _⟩
  | update id task h ih =>
    intro r hr
    rcases List.mem_map.mp hr with ⟨r0, hr0, hre⟩
    by_cases hid : r0.id = some id
    · rw [← hre]
      simp only [hid, if_pos]
      exact ⟨le_trans (ih r0 hr0).1 (ih r0 hr0).2, le_refl _⟩
    · rw [← hre]
      simp only [hid, if_neg, if_false]
      exact ih r0 hr0
  | complete id h ih =>
    intro r hr
    rcases List.mem_map.mp hr with ⟨r0, hr0, hre⟩
    by_cases hid : r0.id = some id
    · rw [← hre]
      simp only [hid, if_pos]
      exact ⟨le_trans (ih r0 hr0).1 (ih r0 hr0).2, le_refl _⟩
    · rw [← hre]
      simp only [hid, if_neg, if_false]
      exact ih r0 hr0

/-- C9: in every store state reachable through create, update and complete,
each task satisfies created_at ≤ updated_at; and created_at is never changed
by update or complete, while add appends the new task's creation instant. -/
theorem timestamps_invariant (db : Database) (t : Int) (h : Reach db t) :
    (∀ r ∈ db.rows, r.created_at ≤ r.updated_at) ∧
    (∀ id task now, (db.update_task id task now).rows.map Task.created_at =
      db.rows.map Task.created_at) ∧
    (∀ id now, (db.complete_task id now).rows.map Task.created_at =
      db.rows.map Task.created_at) ∧
    (∀ task, (db.add_task task).1.rows.map Task.created_at =
      db.rows.map Task.created_at ++ [task.created_at]) := by
  refine ⟨fun r hr => (reach_rows_inv h r hr).1, fun id task now => ?_,
    fun id now => ?_, fun task => ?_⟩
  · unfold Database.update_task
    rw [List.map_map]
    refine List.map_congr_left fun r _ => ?_
    by_cases hid : r.id = some id <;> simp [hid]
  · unfold Database.complete_task
    rw [List.map_map]
    refine List.map_congr_left fun r _ => ?_
    by_cases hid : r.id = some id <;> simp [hid]
  · unfold Database.add_task
    simp

/-- Reachability of the fixture store: add a task at instant 5, then
complete it at instant 6. -/
theorem reach_dbReach2 : Reach dbReach2 6 :=
  Reach.complete 1
    (Reach.tick 6 (Reach.add "a" none none 2 (Reach.init 5)) (by norm_num))

/-- C9 witness: the concrete reachable store satisfies the timestamp
invariant on its single row. -/
theorem timestamps_invariant_witness :
    rowReach ∈ dbReach2.rows ∧ rowReach.created_at ≤ rowReach.updated_at :=
  ⟨by decide, (timestamps_invariant dbReach2 6 reach_dbReach2).1 rowReach
    (by decide)⟩

/-- C10: reading a row back, an unparseable due_date text is silently
coerced to an absent due date, while an unparseable created_at or updated_at
aborts the read. -/
theorem read_row_coercion_spec (row : RawRow) :
    (∀ s, row.due_date = some s → parse_from_rfc3339 s = none →
      (parse_from_rfc3339 row.created_at).isSome = true →
      (parse_from_rfc3339 row.updated_at).isSome = true →
      (taskFromRow row).map Task.due_date = some none) ∧
    (parse_from_rfc3339 row.created_at = none → taskFromRow row = none) ∧
    (parse_from_rfc3339 row.updated_at = none → taskFromRow row = none) := by
  refine ⟨fun s hs hparse hca hua => ?_, fun hca => ?_, fun hua => ?_⟩
  · unfold taskFromRow
    rcases hca2 : parse_from_rfc3339 row.created_at with _ | ca
    · rw [hca2] at hca
      cases hca
    · rcases hua2 : parse_from_rfc3339 row.updated_at with _ | ua
      · rw [hua2] at hua
        cases hua
      · simp [hs, hparse]
  · unfold taskFromRow
    rw [hca]
  · unfold taskFromRow
    rw [hua]
    rcases parse_from_rfc3339 row.created_at with _ | ca <;> rfl

/-- C10 witness: a row with due_date text "garbage" reads back with an
absent due date, while "garbage" in created_at or updated_at aborts the
read. -/
theorem read_row_coercion_spec_witness :
    (taskFromRow rowBadDue).map Task.due_date = some none ∧
    taskFromRow rowBadCa = none ∧
    taskFromRow rowBadUa = none :=
  ⟨(read_row_coercion_spec rowBadDue).1 "garbage" rfl (by decide) (by decide)
     (by decide),
   (read_row_coercion_spec rowBadCa).2.1 (by decide),
   (read_row_coercion_spec rowBadUa).2.2 (by decide)⟩

end Todo
